import Mathlib

set_option maxRecDepth 100000

/-!
Shallow embedding of `src/api/watson-bridge.js`: a single webhook handler that
dispatches on an `action` tag, formats request fields into GitHub issue
payloads, and posts them one at a time to an external tracker.

Modelling conventions:
* JavaScript `undefined`/absent fields are `Option.none`.
* JavaScript truthiness on strings (`x || fallback`) is `orStr`: `none` and
  `some ""` both fall back.  On numbers (`update.progress || fallback`) it is
  `orNatStr`: `none` and `some 0` both fall back.
* Object mappings (`Object.entries`) are association lists in iteration order.
* Each processor is embedded as the ordered list of issue payloads it would
  hand to `createGitHubIssue`; the sequential awaited network calls are
  replayed by `runCalls` against an oracle `resp : Nat → Nat × String` giving
  the tracker status and response text for the k-th outbound call.
* The two places where the JS code dereferences/iterates a possibly-undefined
  value (`dashboardData.currentFocus` for action `dashboard-update`, and
  `for (const email of emailRequests)` for `send-email`) throw a `TypeError`
  that the handler catches; they are embedded as `Except.error` before any
  call is made, which matches the evaluation order of the source.
-/

namespace WatsonBridge

/-- One entry of the `projectUpdates` mapping. -/
structure ProjectUpdate where
  progress : Option Nat
  context : Option String
deriving DecidableEq

/-- The `dashboardData` object. -/
structure DashboardData where
  projects : Option (List (String × String))
  currentFocus : Option String
  context : Option String
deriving DecidableEq

/-- One entry of `emailRequests`. -/
structure EmailRequest where
  type : Option String
  content : Option String
  recipient : Option String
  framework : Option String
  subject : Option String
deriving DecidableEq

/-- The payload handed to `createGitHubIssue`. -/
structure Issue where
  title : String
  body : String
deriving DecidableEq

/-- The destructured POST body. -/
structure Request where
  action : Option String
  conversationType : Option String
  projectUpdates : Option (List (String × ProjectUpdate))
  strategicInsights : Option String
  researchNeeds : Option String
  emailRequests : Option (List EmailRequest)
  dashboardData : Option DashboardData
deriving DecidableEq

/-- JS `s || fb` on an optional string: `undefined` and `""` are falsy. -/
def orStr : Option String → String → String
  | none, fb => fb
  | some s, fb => if s = "" then fb else s

/-- JS `n || fb` on an optional number interpolated into a template:
`undefined` and `0` are falsy, any other number renders as its digits. -/
def orNatStr : Option Nat → String → String
  | none, fb => fb
  | some n, fb => if n = 0 then fb else toString n

/-- `formatProjectUpdates(projects)` from the source. -/
def formatProjectUpdates : Option (List (String × ProjectUpdate)) → String
  | none => "No specific project updates provided"
  | some ps => String.intercalate "\n" (ps.map fun pu =>
      "**" ++ pu.1 ++ ":** " ++ orNatStr pu.2.progress "No progress specified"
        ++ "% - " ++ orStr pu.2.context "Strategic context from conversation")

/-- `formatDashboardUpdates(data)` from the source. -/
def formatDashboardUpdates : Option DashboardData → String
  | none => "General dashboard update from strategic conversation"
  | some d =>
    match d.projects with
    | none => "General dashboard update from strategic conversation"
    | some ps => String.intercalate "\n" (ps.map fun pv => pv.1 ++ ": " ++ pv.2)

/-- The `issueContent` template literal of `processStrategicAnalysis`. -/
def strategicAnalysisContent (insights : Option String)
    (projects : Option (List (String × ProjectUpdate)))
    (research : Option String) : String :=
  "\nStrategic Analysis Update\n\n## Key Insights\n"
    ++ orStr insights "Strategic insights from portfolio discussion"
    ++ "\n\n## Project Context Updates\n"
    ++ formatProjectUpdates projects
    ++ "\n\n## Additional Research Needed\n"
    ++ orStr research "Research requirements identified during strategic conversation"
    ++ "\n\n## Strategic Synthesis\nCross-project implications and strategic positioning adjustments identified.\n"

/-- The template literal of the second (`[EMAIL]`) issue of
`processStrategicAnalysis`, with `insights.substring(0, 200)`. -/
def insightsBriefContent (s : String) : String :=
  "\nStrategic insights brief\nCustom strategic communication\nKey insights: "
    ++ s.take 200 ++ "...\n    "

/-- `processStrategicAnalysis({insights, projects, research})` as the ordered
list of issue payloads it creates: always the analysis issue, plus the brief
issue when `insights && insights.length > 100`. -/
def processStrategicAnalysis (insights : Option String)
    (projects : Option (List (String × ProjectUpdate)))
    (research : Option String) : List Issue :=
  let first : Issue :=
    ⟨"[DASHBOARD] Strategic Analysis Update",
      strategicAnalysisContent insights projects research⟩
  match insights with
  | none => [first]
  | some s =>
    if s ≠ "" ∧ s.length > 100 then
      [first, ⟨"[EMAIL] Strategic Insights Brief", insightsBriefContent s⟩]
    else [first]

/-- `updateDashboardWithContext(dashboardData)` for a present (non-undefined)
`dashboardData`: the single issue it creates. -/
def updateDashboardWithContext (d : DashboardData) : Issue :=
  ⟨"[DASHBOARD] Contextual Update",
    "\nDashboard Update with Strategic Context\n\n"
      ++ formatDashboardUpdates (some d)
      ++ "\n\nFocus: " ++ orStr d.currentFocus "Strategic portfolio execution"
      ++ "\nStrategic Context: " ++ orStr d.context "Updates from strategic conversation"
      ++ "\n"⟩

/-- The issue built for one entry of `emailRequests` in
`triggerStrategicEmail`. -/
def emailIssue (e : EmailRequest) : Issue :=
  ⟨"[EMAIL] " ++ orStr e.subject "Strategic Communication",
    "\n" ++ orStr e.type "strategic communication"
      ++ "\n\n" ++ orStr e.content "Strategic communication from portfolio conversation"
      ++ "\n\nRecipient context: " ++ orStr e.recipient "strategic stakeholder"
      ++ "\nStrategic framework: " ++ orStr e.framework "portfolio-based strategic approach"
      ++ "\n    "⟩

/-- `triggerStrategicEmail(emailRequests)` for an iterable `emailRequests`:
one issue per entry, in sequence order. -/
def triggerStrategicEmail (l : List EmailRequest) : List Issue :=
  l.map emailIssue

/-- `processComplexStrategicUpdate({projectUpdates, strategicInsights,
dashboardData, emailRequests})`: the guarded sequence of the three
processors.  Note the source passes only `insights` and `projects` to
`processStrategicAnalysis` here, so `research` is `undefined` on this path. -/
def processComplexStrategicUpdate
    (projectUpdates : Option (List (String × ProjectUpdate)))
    (strategicInsights : Option String)
    (dashboardData : Option DashboardData)
    (emailRequests : Option (List EmailRequest)) : List Issue :=
  (match dashboardData with
   | some d => [updateDashboardWithContext d]
   | none => [])
  ++ (match strategicInsights with
      | some s => if s = "" then [] else processStrategicAnalysis (some s) projectUpdates none
      | none => [])
  ++ (match emailRequests with
      | some l => if l.length > 0 then triggerStrategicEmail l else []
      | none => [])

/-- The plan of the `dashboard-update` branch: `updateDashboardWithContext`
dereferences `dashboardData.currentFocus`, so an absent `dashboardData`
throws a `TypeError` before any outbound call. -/
def dashboardPlan : Option DashboardData → Except String (List Issue)
  | none => .error "TypeError: cannot read property currentFocus of undefined"
  | some d => .ok [updateDashboardWithContext d]

/-- The plan of the `send-email` branch: `for (const email of emailRequests)`
throws a `TypeError` when `emailRequests` is absent. -/
def emailPlan : Option (List EmailRequest) → Except String (List Issue)
  | none => .error "TypeError: emailRequests is not iterable"
  | some l => .ok (triggerStrategicEmail l)

/-- The `switch (action)` of the handler: `none` for the default branch
(unknown action), otherwise the ordered outbound-call plan of the selected
processor (or the `TypeError` it throws before any call). -/
def planOf (r : Request) : Option (Except String (List Issue)) :=
  match r.action with
  | none => none
  | some a =>
    if a = "strategic-analysis" then
      some (.ok (processStrategicAnalysis r.strategicInsights r.projectUpdates r.researchNeeds))
    else if a = "dashboard-update" then
      some (dashboardPlan r.dashboardData)
    else if a = "send-email" then
      some (emailPlan r.emailRequests)
    else if a = "complex-update" then
      some (.ok (processComplexStrategicUpdate r.projectUpdates r.strategicInsights
        r.dashboardData r.emailRequests))
    else none

/-- `response.ok` of `fetch`: status in the 2xx range. -/
def isOk2xx (status : Nat) : Bool :=
  decide (200 ≤ status) && decide (status < 300)

/-- The message of the error thrown by `createGitHubIssue` on a non-2xx
tracker response with the given status and body text. -/
def githubErrorMessage (status : Nat) (text : String) : String :=
  "GitHub API error: " ++ toString status ++ " " ++ text

/-- Replay the sequential awaited `createGitHubIssue` calls of one plan
against the tracker oracle `resp` (status and body text of the k-th call,
counting from `k`): returns the calls actually made and the thrown error
message, if any.  A failing call is itself made; nothing after it is. -/
def runCalls (resp : Nat → Nat × String) : List Issue → Nat → List Issue × Option String
  | [], _ => ([], none)
  | i :: rest, k =>
    if isOk2xx (resp k).1 then
      let r := runCalls resp rest (k + 1)
      (i :: r.1, r.2)
    else
      ([i], some (githubErrorMessage (resp k).1 (resp k).2))

/-- The JSON body of the handler's HTTP response. -/
inductive RespBody where
  | success (message : String) (timestamp : String)
  | failure (error : String) (details : Option String)
deriving DecidableEq

/-- The handler's HTTP response. -/
structure HttpResponse where
  status : Nat
  body : RespBody
deriving DecidableEq

/-- The exported `handler(req, res)`: given the request method and
destructured body, the current time rendered by `toISOString`, and the
tracker oracle, returns the HTTP response together with the sequence of
outbound issue calls actually made. -/
def handler (method : String) (r : Request) (now : String)
    (resp : Nat → Nat × String) : HttpResponse × List Issue :=
  if method ≠ "POST" then
    (⟨405, .failure "Method not allowed" none⟩, [])
  else
    match planOf r with
    | none => (⟨400, .failure "Unknown action type" none⟩, [])
    | some (.error e) => (⟨500, .failure "Processing failed" (some e)⟩, [])
    | some (.ok plan) =>
      match runCalls resp plan 0 with
      | (made, none) =>
        (⟨200, .success "Strategic update processed successfully" now⟩, made)
      | (made, some e) =>
        (⟨500, .failure "Processing failed" (some e)⟩, made)

/-- A tracker oracle that accepts every call with 201 Created. -/
def acceptAll : Nat → Nat × String := fun _ => (201, "")

/-- An empty request body (every field absent). -/
def emptyRequest : Request :=
  ⟨none, none, none, none, none, none, none⟩

/-- A complex-update request with all four payload groups present and a
non-empty researchNeeds field. -/
def complexRequest : Request :=
  { action := some "complex-update"
    conversationType := none
    projectUpdates := some [("Alpha", ⟨some 40, some "ramping"⟩)]
    strategicInsights := some "Insights"
    researchNeeds := some "Deep market research"
    emailRequests := some [⟨none, none, none, none, some "Update"⟩]
    dashboardData := some ⟨some [("Alpha", "Green")], none, none⟩ }

/-- `complexRequest` with the researchNeeds field removed. -/
def benignComplexRequest : Request :=
  { complexRequest with researchNeeds := none }

/-- A string of length zero is the empty string. -/
theorem eq_empty_of_length_zero (s : String) (h : s.length = 0) : s = "" := by
  have hd : s.data = [] := by
    have := String.length_data s
    exact List.length_eq_zero.mp (by omega)
  exact String.ext (by simpa using hd)

/-- Appending to the right cannot make a non-empty string empty. -/
theorem append_ne_empty_left (a b : String) (h : a ≠ "") : a ++ b ≠ "" := by
  intro he
  apply h
  have hl := congrArg String.length he
  rw [String.length_append] at hl
  exact eq_empty_of_length_zero a (by simpa using Nat.eq_zero_of_add_eq_zero_right hl)

/-- The strategic-analysis issue body is never empty. -/
theorem strategicAnalysisContent_ne_empty (insights : Option String)
    (projects : Option (List (String × ProjectUpdate))) (research : Option String) :
    strategicAnalysisContent insights projects research ≠ "" := by
  unfold strategicAnalysisContent
  repeat apply append_ne_empty_left
  decide

/-- The insights-brief issue body is never empty. -/
theorem insightsBriefContent_ne_empty (s : String) : insightsBriefContent s ≠ "" := by
  unfold insightsBriefContent
  repeat apply append_ne_empty_left
  decide

/-- Both issues of `processStrategicAnalysis` have non-empty title and body. -/
theorem mem_processStrategicAnalysis_ne_empty (i : Issue) (insights : Option String)
    (projects : Option (List (String × ProjectUpdate))) (research : Option String)
    (h : i ∈ processStrategicAnalysis insights projects research) :
    i.title ≠ "" ∧ i.body ≠ "" := by
  unfold processStrategicAnalysis at h
  rcases insights with _ | s
  · simp at h
    subst h
    exact ⟨show ("[DASHBOARD] Strategic Analysis Update" : String) ≠ "" by decide,
      strategicAnalysisContent_ne_empty none projects research⟩
  · by_cases hc : s ≠ "" ∧ s.length > 100
    · simp [hc] at h
      rcases h with h | h
      · subst h
        exact ⟨show ("[DASHBOARD] Strategic Analysis Update" : String) ≠ "" by decide,
          strategicAnalysisContent_ne_empty (some s) projects research⟩
      · subst h
        exact ⟨show ("[EMAIL] Strategic Insights Brief" : String) ≠ "" by decide,
          insightsBriefContent_ne_empty s⟩
    · simp [hc] at h
      subst h
      exact ⟨show ("[DASHBOARD] Strategic Analysis Update" : String) ≠ "" by decide,
        strategicAnalysisContent_ne_empty (some s) projects research⟩

/-- The dashboard issue has non-empty title and body. -/
theorem updateDashboardWithContext_ne_empty (d : DashboardData) :
    (updateDashboardWithContext d).title ≠ "" ∧ (updateDashboardWithContext d).body ≠ "" := by
  refine ⟨show ("[DASHBOARD] Contextual Update" : String) ≠ "" by decide, ?_⟩
  show "\nDashboard Update with Strategic Context\n\n"
      ++ formatDashboardUpdates (some d)
      ++ "\n\nFocus: " ++ orStr d.currentFocus "Strategic portfolio execution"
      ++ "\nStrategic Context: " ++ orStr d.context "Updates from strategic conversation"
      ++ "\n" ≠ ""
  repeat apply append_ne_empty_left
  decide

/-- Every email issue has non-empty title and body. -/
theorem emailIssue_ne_empty (e : EmailRequest) :
    (emailIssue e).title ≠ "" ∧ (emailIssue e).body ≠ "" := by
  constructor
  · show "[EMAIL] " ++ orStr e.subject "Strategic Communication" ≠ ""
    apply append_ne_empty_left
    decide
  · show "\n" ++ orStr e.type "strategic communication"
      ++ "\n\n" ++ orStr e.content "Strategic communication from portfolio conversation"
      ++ "\n\nRecipient context: " ++ orStr e.recipient "strategic stakeholder"
      ++ "\nStrategic framework: " ++ orStr e.framework "portfolio-based strategic approach"
      ++ "\n    " ≠ ""
    repeat apply append_ne_empty_left
    decide

/-- Every issue of the complex-update plan has non-empty title and body. -/
theorem mem_processComplexStrategicUpdate_ne_empty (i : Issue)
    (projectUpdates : Option (List (String × ProjectUpdate)))
    (strategicInsights : Option String) (dashboardData : Option DashboardData)
    (emailRequests : Option (List EmailRequest))
    (h : i ∈ processComplexStrategicUpdate projectUpdates strategicInsights
      dashboardData emailRequests) :
    i.title ≠ "" ∧ i.body ≠ "" := by
  unfold processComplexStrategicUpdate at h
  rw [List.mem_append, List.mem_append] at h
  rcases h with (h | h) | h
  · rcases dashboardData with _ | d
    · simp at h
    · simp at h
      subst h
      exact updateDashboardWithContext_ne_empty d
  · rcases strategicInsights with _ | s
    · simp at h
    · by_cases hs : s = ""
      · simp [hs] at h
      · simp [hs] at h
        exact mem_processStrategicAnalysis_ne_empty i (some s) projectUpdates none h
  · rcases emailRequests with _ | l
    · simp at h
    · by_cases hl : l.length > 0
      · simp [hl, triggerStrategicEmail] at h
        rcases h with ⟨e, _, he⟩
        rw [← he]
        exact emailIssue_ne_empty e
      · simp [hl] at h

/-- When the tracker accepts every call, the whole plan is executed and no
error is thrown. -/
theorem runCalls_all_ok (resp : Nat → Nat × String)
    (h : ∀ j, isOk2xx (resp j).1 = true) :
    ∀ (is : List Issue) (k : Nat), runCalls resp is k = (is, none) := by
  intro is
  induction is with
  | nil => intro k; rfl
  | cons i rest ih =>
    intro k
    simp [runCalls, h k, ih (k + 1)]

/-- When the first `n` calls succeed and the call at index `n` fails, the
calls made are exactly the first `n + 1` planned ones and the thrown error
carries the failing status and response text. -/
theorem runCalls_fail (resp : Nat → Nat × String) :
    ∀ (is : List Issue) (k n : Nat), n < is.length →
      (∀ j, j < n → isOk2xx (resp (k + j)).1 = true) →
      isOk2xx (resp (k + n)).1 = false →
      runCalls resp is k =
        (is.take (n + 1), some (githubErrorMessage (resp (k + n)).1 (resp (k + n)).2)) := by
  intro is
  induction is with
  | nil =>
    intro k n hn _ _
    simp at hn
  | cons i rest ih =>
    intro k n hn hpre hfail
    cases n with
    | zero =>
      have h0 : isOk2xx (resp k).1 = false := by simpa using hfail
      simp [runCalls, h0]
    | succ m =>
      have h0 : isOk2xx (resp k).1 = true := by simpa using hpre 0 (Nat.succ_pos m)
      have hm : m < rest.length := by simpa using Nat.lt_of_succ_lt_succ hn
      have hpre' : ∀ j, j < m → isOk2xx (resp (k + 1 + j)).1 = true := by
        intro j hj
        have := hpre (j + 1) (Nat.succ_lt_succ hj)
        have harith : k + (j + 1) = k + 1 + j := by omega
        rwa [harith] at this
      have hfail' : isOk2xx (resp (k + 1 + m)).1 = false := by
        have harith : k + (m + 1) = k + 1 + m := by omega
        rwa [harith] at hfail
      have harith2 : k + 1 + m = k + (m + 1) := by omega
      simp [runCalls, h0, ih (k + 1) m hm hpre' hfail', harith2]

/-- A POST request whose plan computes, replayed against an all-accepting
tracker: 200 success envelope, all planned calls made. -/
theorem handler_post_ok (r : Request) (now : String) (resp : Nat → Nat × String)
    (is : List Issue)
    (hok : ∀ j, isOk2xx (resp j).1 = true)
    (hp : planOf r = some (.ok is)) :
    handler "POST" r now resp =
      (⟨200, .success "Strategic update processed successfully" now⟩, is) := by
  simp [handler, hp, runCalls_all_ok resp hok is 0]

/-- The outbound calls of a successful POST are exactly the plan. -/
theorem handler_post_calls (r : Request) (now : String) (resp : Nat → Nat × String)
    (is : List Issue)
    (hok : ∀ j, isOk2xx (resp j).1 = true)
    (hp : planOf r = some (.ok is)) :
    (handler "POST" r now resp).2 = is := by
  rw [handler_post_ok r now resp is hok hp]

/-- Claim C3 counterexample: a dashboard-update request whose dashboardData
is absent builds no issue at all — the handler throws before the outbound
call and answers 500 — rather than exactly one issue with the fallback
dashboard section. -/
theorem dashboardUpdate_absent_data_no_issue :
    (handler "POST" { emptyRequest with action := some "dashboard-update" }
        "2026-01-01T00:00:00.000Z" acceptAll).2.length = 0
    ∧ (handler "POST" { emptyRequest with action := some "dashboard-update" }
        "2026-01-01T00:00:00.000Z" acceptAll).1.status = 500 := by
  constructor <;> rfl

/-- Claim C3 (amended): for every dashboard-update request whose
dashboardData is present the handler builds exactly one issue from it; when
the projects field is absent (in particular for an empty dashboardData
object, and for `formatDashboardUpdates` of an absent argument) the
dashboard section of the body is the single fallback line "General dashboard
update from strategic conversation", and otherwise it is one
"<project>: <value>" line per entry of projects; a dashboard-update request
with dashboardData absent builds no issue and fails. -/
theorem dashboardUpdate_builds_one_issue (r : Request) (d : DashboardData)
    (now : String) (resp : Nat → Nat × String)
    (hok : ∀ j, isOk2xx (resp j).1 = true)
    (ha : r.action = some "dashboard-update")
    (hd : r.dashboardData = some d) :
    (handler "POST" r now resp).2 = [updateDashboardWithContext d]
    ∧ formatDashboardUpdates none = "General dashboard update from strategic conversation"
    ∧ formatDashboardUpdates (some ⟨none, none, none⟩)
        = "General dashboard update from strategic conversation"
    ∧ (d.projects = none →
        (updateDashboardWithContext d).body
          = "\nDashboard Update with Strategic Context\n\n"
            ++ "General dashboard update from strategic conversation"
            ++ "\n\nFocus: " ++ orStr d.currentFocus "Strategic portfolio execution"
            ++ "\nStrategic Context: " ++ orStr d.context "Updates from strategic conversation"
            ++ "\n")
    ∧ (∀ ps, d.projects = some ps →
        (updateDashboardWithContext d).body
          = "\nDashboard Update with Strategic Context\n\n"
            ++ String.intercalate "\n" (ps.map fun pv => pv.1 ++ ": " ++ pv.2)
            ++ "\n\nFocus: " ++ orStr d.currentFocus "Strategic portfolio execution"
            ++ "\nStrategic Context: " ++ orStr d.context "Updates from strategic conversation"
            ++ "\n") := by
  have hp : planOf r = some (.ok [updateDashboardWithContext d]) := by
    simp [planOf, ha, hd, dashboardPlan]
  refine ⟨handler_post_calls r now resp _ hok hp, rfl, rfl, ?_, ?_⟩
  · intro hproj
    simp [updateDashboardWithContext, formatDashboardUpdates, hproj]
  · intro ps hproj
    simp [updateDashboardWithContext, formatDashboardUpdates, hproj]

/-- Witness for C3: a concrete dashboard-update request with one project
entry makes exactly the one contextual-update call. -/
theorem dashboardUpdate_builds_one_issue_witness :
    (handler "POST"
      { emptyRequest with
        action := some "dashboard-update",
        dashboardData := some ⟨some [("Alpha", "Green")], none, none⟩ }
      "2026-01-01T00:00:00.000Z" acceptAll).2
      = [updateDashboardWithContext ⟨some [("Alpha", "Green")], none, none⟩] :=
  (dashboardUpdate_builds_one_issue _ _ _ acceptAll (fun _ => rfl) rfl rfl).1

/-- Claim C4: a strategic-analysis request plans exactly one outbound call
when insights is absent or at most 100 characters long, and exactly two when
longer, the second body containing the first 200 characters of insights. -/
theorem strategicAnalysis_call_count (r : Request) (now : String)
    (resp : Nat → Nat × String)
    (hok : ∀ j, isOk2xx (resp j).1 = true)
    (ha : r.action = some "strategic-analysis") :
    ((r.strategicInsights = none ∨
        ∃ s, r.strategicInsights = some s ∧ s.length ≤ 100) →
      (handler "POST" r now resp).2.length = 1)
    ∧ (∀ s, r.strategicInsights = some s → s.length > 100 →
        ∃ i₁ i₂, (handler "POST" r now resp).2 = [i₁, i₂]
          ∧ ∃ u v, i₂.body = u ++ s.take 200 ++ v) := by
  have hp : planOf r = some (.ok (processStrategicAnalysis r.strategicInsights
      r.projectUpdates r.researchNeeds)) := by
    simp [planOf, ha]
  have hcalls := handler_post_calls r now resp _ hok hp
  constructor
  · intro hs
    rw [hcalls]
    rcases hs with hs | ⟨s, hs, hlen⟩
    · simp [processStrategicAnalysis, hs]
    · have hcond : ¬(s ≠ "" ∧ s.length > 100) := by omega
      simp [processStrategicAnalysis, hs, hcond]
  · intro s hs hlen
    have hne : s ≠ "" := by
      intro he
      rw [he] at hlen
      simp at hlen
    have hcond : s ≠ "" ∧ s.length > 100 := ⟨hne, hlen⟩
    rw [hcalls, hs]
    have hplan2 : processStrategicAnalysis (some s) r.projectUpdates r.researchNeeds
        = [⟨"[DASHBOARD] Strategic Analysis Update",
            strategicAnalysisContent (some s) r.projectUpdates r.researchNeeds⟩,
           ⟨"[EMAIL] Strategic Insights Brief", insightsBriefContent s⟩] := by
      simp [processStrategicAnalysis, hcond.1, hcond.2]
    exact ⟨_, _, hplan2,
      "\nStrategic insights brief\nCustom strategic communication\nKey insights: ",
      "...\n    ", rfl⟩

/-- Witness for C4: insights of length 2 yields a single outbound call. -/
theorem strategicAnalysis_call_count_witness :
    (handler "POST"
      { emptyRequest with
        action := some "strategic-analysis",
        strategicInsights := some "ok" }
      "2026-01-01T00:00:00.000Z" acceptAll).2.length = 1 :=
  (strategicAnalysis_call_count _ _ acceptAll (fun _ => rfl) rfl).1
    (Or.inr ⟨"ok", rfl, by decide⟩)

/-- Claim C5: a send-email request with an emailRequests sequence of length N
makes exactly N outbound calls, one per entry in order, each titled from the
entry's subject with fallback "Strategic Communication". -/
theorem sendEmail_one_call_per_entry (r : Request) (l : List EmailRequest)
    (now : String) (resp : Nat → Nat × String)
    (hok : ∀ j, isOk2xx (resp j).1 = true)
    (ha : r.action = some "send-email")
    (he : r.emailRequests = some l) :
    (handler "POST" r now resp).2 = l.map emailIssue
    ∧ (handler "POST" r now resp).2.length = l.length
    ∧ ∀ e, (emailIssue e).title
        = "[EMAIL] " ++ (match e.subject with
            | none => "Strategic Communication"
            | some s => if s = "" then "Strategic Communication" else s) := by
  have hp : planOf r = some (.ok (l.map emailIssue)) := by
    simp [planOf, ha, he, emailPlan, triggerStrategicEmail]
  have hcalls := handler_post_calls r now resp _ hok hp
  refine ⟨hcalls, by rw [hcalls]; simp, fun e => ?_⟩
  rcases e with ⟨t, c, rcp, f, subj⟩
  rcases subj with _ | s <;> rfl

/-- Witness for C5: three concrete email requests produce exactly their
three issues. -/
theorem sendEmail_one_call_per_entry_witness :
    (handler "POST"
      { emptyRequest with
        action := some "send-email",
        emailRequests := some
          [⟨none, none, none, none, some "A"⟩,
           ⟨none, none, none, none, none⟩,
           ⟨some "memo", some "body", none, none, some "C"⟩] }
      "2026-01-01T00:00:00.000Z" acceptAll).2
      = List.map emailIssue
          [⟨none, none, none, none, some "A"⟩,
           ⟨none, none, none, none, none⟩,
           ⟨some "memo", some "body", none, none, some "C"⟩] :=
  (sendEmail_one_call_per_entry _
    [⟨none, none, none, none, some "A"⟩,
     ⟨none, none, none, none, none⟩,
     ⟨some "memo", some "body", none, none, some "C"⟩]
    "2026-01-01T00:00:00.000Z" acceptAll (fun _ => rfl) rfl rfl).1

/-- Claim C1 counterexample: on `complexRequest` — all four payload groups
present — the complex-update call sequence differs from the concatenation
of the sequences that dashboard-update, strategic-analysis and send-email
produce independently on the same payload: the complex path passes no
research field to the strategic analysis, so the research section of the
analysis issue body differs. -/
theorem complexUpdate_drops_researchNeeds :
    (handler "POST" complexRequest "2026-01-01T00:00:00.000Z" acceptAll).2
      ≠ (handler "POST" { complexRequest with action := some "dashboard-update" }
            "2026-01-01T00:00:00.000Z" acceptAll).2
        ++ (handler "POST" { complexRequest with action := some "strategic-analysis" }
            "2026-01-01T00:00:00.000Z" acceptAll).2
        ++ (handler "POST" { complexRequest with action := some "send-email" }
            "2026-01-01T00:00:00.000Z" acceptAll).2 := by
  decide

/-- Claim C1 (amended): for a complex-update request with dashboardData
present, strategicInsights present and non-empty, emailRequests a non-empty
sequence, and researchNeeds absent or empty — the complex path passes no
research field to the strategic analysis, so a truthy researchNeeds would
change the analysis body — the outbound call sequence equals the
concatenation, in order, of the sequences that dashboard-update,
strategic-analysis and send-email would produce independently on the same
payload. -/
theorem complexUpdate_concat_of_component_plans (r : Request) (d : DashboardData)
    (s : String) (l : List EmailRequest) (now : String) (resp : Nat → Nat × String)
    (hok : ∀ j, isOk2xx (resp j).1 = true)
    (ha : r.action = some "complex-update")
    (hd : r.dashboardData = some d)
    (hs : r.strategicInsights = some s) (hsne : s ≠ "")
    (hl : r.emailRequests = some l) (hlne : l ≠ [])
    (hres : r.researchNeeds = none ∨ r.researchNeeds = some "") :
    (handler "POST" r now resp).2
      = (handler "POST" { r with action := some "dashboard-update" } now resp).2
        ++ (handler "POST" { r with action := some "strategic-analysis" } now resp).2
        ++ (handler "POST" { r with action := some "send-email" } now resp).2 := by
  have hp : planOf r = some (.ok (processComplexStrategicUpdate r.projectUpdates
      r.strategicInsights r.dashboardData r.emailRequests)) := by simp [planOf, ha]
  have hpd : planOf { r with action := some "dashboard-update" }
      = some (.ok [updateDashboardWithContext d]) := by
    simp [planOf, hd, dashboardPlan]
  have hps : planOf { r with action := some "strategic-analysis" }
      = some (.ok (processStrategicAnalysis r.strategicInsights r.projectUpdates
          r.researchNeeds)) := by
    simp [planOf]
  have hpe : planOf { r with action := some "send-email" }
      = some (.ok (triggerStrategicEmail l)) := by
    simp [planOf, hl, emailPlan]
  rw [handler_post_calls _ now resp _ hok hp,
      handler_post_calls _ now resp _ hok hpd,
      handler_post_calls _ now resp _ hok hps,
      handler_post_calls _ now resp _ hok hpe]
  have hres2 : processStrategicAnalysis (some s) r.projectUpdates none
      = processStrategicAnalysis (some s) r.projectUpdates r.researchNeeds := by
    rcases hres with h | h <;> rw [h]
    rfl
  have hlen : l.length > 0 := List.length_pos.mpr hlne
  rw [hs, hd, hl, ← hres2]
  simp [processComplexStrategicUpdate, hsne, hlen]

/-- Witness for C1: on a concrete all-groups-present request with no
researchNeeds, the complex-update calls are the three independent call
sequences concatenated. -/
theorem complexUpdate_concat_witness :
    (handler "POST" benignComplexRequest "2026-01-01T00:00:00.000Z" acceptAll).2
      = (handler "POST" { benignComplexRequest with action := some "dashboard-update" }
            "2026-01-01T00:00:00.000Z" acceptAll).2
        ++ (handler "POST" { benignComplexRequest with action := some "strategic-analysis" }
            "2026-01-01T00:00:00.000Z" acceptAll).2
        ++ (handler "POST" { benignComplexRequest with action := some "send-email" }
            "2026-01-01T00:00:00.000Z" acceptAll).2 :=
  complexUpdate_concat_of_component_plans benignComplexRequest
    ⟨some [("Alpha", "Green")], none, none⟩ "Insights"
    [⟨none, none, none, none, some "Update"⟩]
    "2026-01-01T00:00:00.000Z" acceptAll (fun _ => rfl)
    rfl rfl rfl (by decide) rfl (by decide) (Or.inl rfl)

/-- Claim C2 counterexample: a send-email request with no emailRequests
field has a recognized action, makes no outbound call at all (so the
tracker vacuously accepts every call made), and yet the handler answers
500, not 200 — the iteration over the absent sequence throws first. -/
theorem sendEmail_missing_list_returns_500 :
    (handler "POST" { emptyRequest with action := some "send-email" }
        "2026-01-01T00:00:00.000Z" acceptAll).1.status = 500
    ∧ (handler "POST" { emptyRequest with action := some "send-email" }
        "2026-01-01T00:00:00.000Z" acceptAll).2 = [] := by
  constructor <;> rfl

/-- Claim C2 (amended): for every POST request with a recognized action —
provided dashboard-update carries a dashboardData object and send-email
carries an emailRequests sequence, since otherwise the processor throws
before any call — if the tracker accepts every outbound call, the handler
returns 200 with the success envelope and the current timestamp. -/
theorem recognized_action_allOk_returns_200 (r : Request) (now : String)
    (resp : Nat → Nat × String)
    (hok : ∀ j, isOk2xx (resp j).1 = true)
    (ha : r.action = some "strategic-analysis"
        ∨ (r.action = some "dashboard-update" ∧ r.dashboardData ≠ none)
        ∨ (r.action = some "send-email" ∧ r.emailRequests ≠ none)
        ∨ r.action = some "complex-update") :
    (handler "POST" r now resp).1
      = ⟨200, .success "Strategic update processed successfully" now⟩ := by
  rcases ha with ha | ⟨ha, hd⟩ | ⟨ha, he⟩ | ha
  · have hp : planOf r = some (.ok (processStrategicAnalysis r.strategicInsights
        r.projectUpdates r.researchNeeds)) := by simp [planOf, ha]
    rw [handler_post_ok r now resp _ hok hp]
  · rcases hdd : r.dashboardData with _ | d
    · exact absurd hdd hd
    · have hp : planOf r = some (.ok [updateDashboardWithContext d]) := by
        simp [planOf, ha, hdd, dashboardPlan]
      rw [handler_post_ok r now resp _ hok hp]
  · rcases hee : r.emailRequests with _ | l
    · exact absurd hee he
    · have hp : planOf r = some (.ok (triggerStrategicEmail l)) := by
        simp [planOf, ha, hee, emailPlan]
      rw [handler_post_ok r now resp _ hok hp]
  · have hp : planOf r = some (.ok (processComplexStrategicUpdate r.projectUpdates
        r.strategicInsights r.dashboardData r.emailRequests)) := by simp [planOf, ha]
    rw [handler_post_ok r now resp _ hok hp]

/-- Witness for C2: a complex-update request with all groups present gets
the 200 success envelope from an all-accepting tracker. -/
theorem recognized_action_allOk_returns_200_witness :
    (handler "POST"
      { action := some "complex-update"
        conversationType := none
        projectUpdates := some [("Alpha", ⟨some 40, none⟩)]
        strategicInsights := some "Insights"
        researchNeeds := none
        emailRequests := some [⟨none, none, none, none, some "Q4"⟩]
        dashboardData := some ⟨some [("Alpha", "Green")], none, none⟩ }
      "2026-01-01T00:00:00.000Z" acceptAll).1
      = ⟨200, .success "Strategic update processed successfully"
          "2026-01-01T00:00:00.000Z"⟩ :=
  recognized_action_allOk_returns_200 _ _ acceptAll (fun _ => rfl)
    (Or.inr (Or.inr (Or.inr rfl)))

/-- Claim C6: when the first n outbound calls are accepted and the call at
index n gets a non-2xx status, the handler answers 500 with details carrying
the tracker status code and response text, and exactly the first n+1 planned
calls were made — none after the failing one. -/
theorem tracker_failure_stops_and_reports (r : Request) (now : String)
    (resp : Nat → Nat × String) (is : List Issue) (n : Nat)
    (hp : planOf r = some (.ok is)) (hn : n < is.length)
    (hpre : ∀ j, j < n → isOk2xx (resp j).1 = true)
    (hfail : isOk2xx (resp n).1 = false) :
    handler "POST" r now resp
      = (⟨500, .failure "Processing failed"
          (some ("GitHub API error: " ++ toString (resp n).1 ++ " " ++ (resp n).2))⟩,
         is.take (n + 1)) := by
  have hrun := runCalls_fail resp is 0 n hn
    (by intro j hj; simpa using hpre j hj) (by simpa using hfail)
  simp only [Nat.zero_add] at hrun
  simp [handler, hp, hrun, githubErrorMessage]

/-- Witness for C6: two planned email calls, the first accepted and the
second rejected with 422 — the handler reports 500 with the status and the
tracker text, and both (but only those two) calls were made. -/
theorem tracker_failure_stops_and_reports_witness :
    handler "POST"
      { emptyRequest with
        action := some "send-email",
        emailRequests := some
          [⟨none, none, none, none, some "A"⟩,
           ⟨none, none, none, none, some "B"⟩,
           ⟨none, none, none, none, some "C"⟩] }
      "2026-01-01T00:00:00.000Z"
      (fun k => if k = 0 then (201, "") else (422, "Unprocessable Entity"))
      = (⟨500, .failure "Processing failed"
          (some ("GitHub API error: " ++ toString (422 : Nat) ++ " Unprocessable Entity"))⟩,
         (triggerStrategicEmail
           [⟨none, none, none, none, some "A"⟩,
            ⟨none, none, none, none, some "B"⟩,
            ⟨none, none, none, none, some "C"⟩]).take 2) := by
  refine tracker_failure_stops_and_reports _ _ _ _ 1 rfl (by decide) ?_ rfl
  intro j hj
  have hj0 : j = 0 := by omega
  subst hj0
  rfl

/-- Claim C7: for every POST request whose action field is absent or not one
of the four recognized values, the handler returns HTTP 400 with body
error "Unknown action type", regardless of the other body fields. -/
theorem unknown_action_returns_400 (r : Request) (now : String)
    (resp : Nat → Nat × String)
    (h : ∀ a, r.action = some a →
      a ≠ "strategic-analysis" ∧ a ≠ "dashboard-update" ∧
      a ≠ "send-email" ∧ a ≠ "complex-update") :
    handler "POST" r now resp = (⟨400, .failure "Unknown action type" none⟩, []) := by
  have hp : planOf r = none := by
    unfold planOf
    rcases ha : r.action with _ | a
    · rfl
    · obtain ⟨h1, h2, h3, h4⟩ := h a ha
      simp [h1, h2, h3, h4]
  simp [handler, hp]

/-- Witness for C7: a POST carrying action "bogus" and unrelated fields gets
the 400 response. -/
theorem unknown_action_returns_400_witness :
    handler "POST"
      { emptyRequest with
        action := some "bogus",
        strategicInsights := some "ignored" } "2026-01-01T00:00:00.000Z" acceptAll
      = (⟨400, .failure "Unknown action type" none⟩, []) := by
  refine unknown_action_returns_400 _ _ _ ?_
  intro a ha
  simp at ha
  subst ha
  decide

/-- Claim C8: formatProjectUpdates of an absent mapping is exactly the line
"No specific project updates provided"; otherwise it renders, in iteration
order and joined by newlines, one line per entry of the form
"**<project>:** <progress or fallback>% - <context or fallback>". -/
theorem formatProjectUpdates_lines :
    formatProjectUpdates none = "No specific project updates provided"
    ∧ ∀ ps : List (String × ProjectUpdate),
        formatProjectUpdates (some ps) =
          String.intercalate "\n" (ps.map fun pu =>
            "**" ++ pu.1 ++ ":** "
              ++ (match pu.2.progress with
                  | none => "No progress specified"
                  | some n => if n = 0 then "No progress specified" else toString n)
              ++ "% - "
              ++ (match pu.2.context with
                  | none => "Strategic context from conversation"
                  | some c => if c = "" then "Strategic context from conversation" else c)) := by
  refine ⟨rfl, fun ps => ?_⟩
  have hdef : formatProjectUpdates (some ps) =
      String.intercalate "\n" (ps.map fun pu =>
        "**" ++ pu.1 ++ ":** " ++ orNatStr pu.2.progress "No progress specified"
          ++ "% - " ++ orStr pu.2.context "Strategic context from conversation") := rfl
  rw [hdef]
  congr 1
  congr 1
  funext pu
  rcases pu with ⟨name, prog, ctx⟩
  rcases prog with _ | n <;> rcases ctx with _ | c <;> rfl

/-- Claim C9: every issue payload any action path hands to the outbound
tracker has a non-empty title and a non-empty body, and an absent optional
field is rendered as its literal fallback, never as the empty string. -/
theorem issue_payloads_nonempty (r : Request) (is : List Issue)
    (hp : planOf r = some (.ok is)) :
    (∀ i ∈ is, i.title ≠ "" ∧ i.body ≠ "")
    ∧ (∀ fb, orStr none fb = fb) ∧ (∀ fb, orNatStr none fb = fb) := by
  refine ⟨?_, fun _ => rfl, fun _ => rfl⟩
  intro i hi
  unfold planOf at hp
  rcases ha : r.action with _ | a
  · rw [ha] at hp
    exact absurd hp (by simp)
  · rw [ha] at hp
    by_cases h1 : a = "strategic-analysis"
    · simp [h1] at hp
      rw [← hp] at hi
      exact mem_processStrategicAnalysis_ne_empty i _ _ _ hi
    · by_cases h2 : a = "dashboard-update"
      · simp [h1, h2] at hp
        rcases hd : r.dashboardData with _ | d
        · rw [hd] at hp
          simp [dashboardPlan] at hp
        · rw [hd] at hp
          simp [dashboardPlan] at hp
          rw [← hp] at hi
          simp at hi
          rw [hi]
          exact updateDashboardWithContext_ne_empty d
      · by_cases h3 : a = "send-email"
        · simp [h1, h2, h3] at hp
          rcases he : r.emailRequests with _ | l
          · rw [he] at hp
            simp [emailPlan] at hp
          · rw [he] at hp
            simp [emailPlan, triggerStrategicEmail] at hp
            rw [← hp] at hi
            simp at hi
            rcases hi with ⟨e, _, he2⟩
            rw [← he2]
            exact emailIssue_ne_empty e
        · by_cases h4 : a = "complex-update"
          · simp [h1, h2, h3, h4] at hp
            rw [← hp] at hi
            exact mem_processComplexStrategicUpdate_ne_empty i _ _ _ _ hi
          · simp [h1, h2, h3, h4] at hp

/-- Witness for C9: the complex-update plan of a concrete request with every
group present has only non-empty titles and bodies. -/
theorem issue_payloads_nonempty_witness :
    (∀ i ∈ processComplexStrategicUpdate
        (some [("Alpha", ⟨some 40, none⟩)]) (some "Insights")
        (some ⟨some [("Alpha", "Green")], none, none⟩)
        (some [⟨none, none, none, none, some "Q4"⟩]),
      i.title ≠ "" ∧ i.body ≠ "")
    ∧ (∀ fb, orStr none fb = fb) ∧ (∀ fb, orNatStr none fb = fb) :=
  issue_payloads_nonempty
    { action := some "complex-update"
      conversationType := none
      projectUpdates := some [("Alpha", ⟨some 40, none⟩)]
      strategicInsights := some "Insights"
      researchNeeds := none
      emailRequests := some [⟨none, none, none, none, some "Q4"⟩]
      dashboardData := some ⟨some [("Alpha", "Green")], none, none⟩ } _ rfl

/-- Claim C10: a present-but-falsy field (progress 0, or an empty string for
context, insights, research, type, content, recipient, framework, subject,
currentFocus, or the dashboard context) is replaced by its fallback exactly
as if the field were absent. -/
theorem falsy_fields_use_fallbacks :
    (∀ p : String, formatProjectUpdates (some [(p, ⟨some 0, some ""⟩)])
      = formatProjectUpdates (some [(p, ⟨none, none⟩)]))
    ∧ (∀ ps, processStrategicAnalysis (some "") ps (some "")
        = processStrategicAnalysis none ps none)
    ∧ emailIssue ⟨some "", some "", some "", some "", some ""⟩
        = emailIssue ⟨none, none, none, none, none⟩
    ∧ ∀ pr, updateDashboardWithContext ⟨pr, some "", some ""⟩
        = updateDashboardWithContext ⟨pr, none, none⟩ := by
  refine ⟨fun p => rfl, fun ps => rfl, rfl, fun pr => rfl⟩

end WatsonBridge
